import Mathlib

/-!
Shallow embedding of the `coredump` crate (`src/lib.rs`).

The crate's operations are direct blocking OS calls; we model the OS as an
environment record `Env` fixing the outcome of each primitive, and every
operation returns its `Result` together with a trace of the OS calls it
attempted (`List Event`).  Panic hooks are modelled as trace-producing
functions, so that hook wrapping and invocation order are observable.
-/

namespace Coredump

/-- `type Str = Cow<'static, str>` from `lib.rs`. -/
abbrev Str := String

/-- The crate's error type (`enum Error { Io(IoError), Int(TryFromIntError) }`).
An `IoError` is carried as its display string; `TryFromIntError` carries
no data. -/
inductive Error where
  | io (msg : String)
  | int
  deriving Repr, DecidableEq

/-- `Display for Error`: `Io` prints the inner I/O error, `Int` prints the
fixed message of `TryFromIntError`. -/
def Error.msg : Error → String
  | .io m => m
  | .int => "out of range integral type conversion attempted"

/-- One attempted OS call (or `eprintln`, or a panic-hook
capture/installation), in program order. -/
inductive Event where
  | getrlimit
  | setrlimit (cur max : Nat)
  | getcwd
  | chdir (dir : String)
  | kill (pid : Int) (sig : Int)
  | takeHook
  | setHook
  | eprintln (msg : String)
  deriving Repr, DecidableEq

/-- Outcomes of the OS primitives the crate calls, fixed per environment.
`none`/`some` encode success/failure exactly as the corresponding call
reports it:
* `getrlimitCore = some (cur, max)`: `getrlimit(RLIMIT_CORE, ..)` returns 0
  and stores that pair; `none`: it returns -1 and `getrlimitErr` is the
  `last_os_error` display string.
* `setrlimitCore l = none`: `setrlimit(RLIMIT_CORE, &l)` returns 0;
  `some e`: it returns -1 with last OS error `e`.
* `currentDir`/`currentDirErr`: result of `std::env::current_dir()`.
* `setCurrentDir d`: result of `std::env::set_current_dir(d)`.
* `pid`: `std::process::id()`, a `u32`.
* `killRes p s`: result of `libc::kill(p, s)`.
* `tempDir`: `std::env::temp_dir()`. -/
structure Env where
  getrlimitCore : Option (Nat × Nat)
  getrlimitErr : String
  setrlimitCore : Nat × Nat → Option String
  currentDir : Option String
  currentDirErr : String
  setCurrentDir : String → Option String
  pid : Nat
  killRes : Int → Int → Option String
  tempDir : String

/-- `libc::SIGQUIT`. -/
def SIGQUIT : Int := 3

/-- `i32::MAX`, the ceiling of `u32 as TryInto<i32>` used for the `pid_t`
argument of `kill`. -/
def i32Max : Nat := 2 ^ 31 - 1

/-- `pid.try_into()` in `dump_core`: converting the `u32` process id to the
`i32` (`pid_t`) expected by `kill`, failing with `TryFromIntError` when the
value does not fit. -/
def pidTryInto (pid : Nat) : Except Error Int :=
  if pid ≤ i32Max then Except.ok (Int.ofNat pid) else Except.error Error.int

/-- `fn dump_core()` from `lib.rs`: convert the pid, then
`kill(pid, SIGQUIT)` guarded by `check(.., -1)`. -/
def dump_core (env : Env) : Except (Str × Error) Unit × List Event :=
  match pidTryInto env.pid with
  | Except.error e =>
      (Except.error
        ("unable to dump core: PID " ++ toString env.pid ++
          " is not a valid unsigned value", e), [])
  | Except.ok p =>
      match env.killRes p SIGQUIT with
      | some e =>
          (Except.error ("failed to send SIGQUIT", Error.io e),
           [Event.kill p SIGQUIT])
      | none => (Except.ok (), [Event.kill p SIGQUIT])

/-- `fn dump_core_and_quit(dir)` from `lib.rs`: snapshot `current_dir`,
`set_current_dir(dir)`, `dump_core()`; on any `dump_core` error the
snapshot is restored best-effort (`let _ = set_current_dir(cur_dir)`, its
outcome discarded) before the error is returned. -/
def dump_core_and_quit (env : Env) (dir : String) :
    Except (Str × Error) Unit × List Event :=
  match env.currentDir with
  | none =>
      (Except.error
        ("failed to retrieve current directory", Error.io env.currentDirErr),
       [Event.getcwd])
  | some cur_dir =>
      match env.setCurrentDir dir with
      | some e =>
          (Except.error
            ("failed to change working directory to " ++ dir, Error.io e),
           [Event.getcwd, Event.chdir dir])
      | none =>
          match dump_core env with
          | (Except.error err, evs) =>
              (Except.error err,
               [Event.getcwd, Event.chdir dir] ++ evs ++ [Event.chdir cur_dir])
          | (Except.ok _, evs) =>
              (Except.ok (), [Event.getcwd, Event.chdir dir] ++ evs)

/-- `fn enable_core_dumps()` from `lib.rs`: read the `RLIMIT_CORE` pair;
fail if the read fails; fail with the synthetic I/O error
`"hard limit is zero"` when `rlim_max == 0`; otherwise set
`rlim_cur = rlim_max` and write the pair back. -/
def enable_core_dumps (env : Env) : Except (Str × Error) Unit × List Event :=
  match env.getrlimitCore with
  | none =>
      (Except.error
        ("failed to retrieve core file size limit", Error.io env.getrlimitErr),
       [Event.getrlimit])
  | some (_cur, max) =>
      if max = 0 then
        (Except.error
          ("failed to adjust core file size limit", Error.io "hard limit is zero"),
         [Event.getrlimit])
      else
        match env.setrlimitCore (max, max) with
        | some e =>
            (Except.error
              ("failed to adjust core file size limit", Error.io e),
             [Event.getrlimit, Event.setrlimit max max])
        | none =>
            (Except.ok (), [Event.getrlimit, Event.setrlimit max max])

/-- A panic hook: given the panic payload and the environment at fault time,
the trace of calls it performs. -/
abbrev Hook := String → Env → List Event

/-- The dump step appended by the installed handler: call
`dump_core_and_quit(&temp_dir())` and, on failure, report it to stderr
(`eprintln!("failed to dump core: {}: {}", ctx, err)`). -/
def panicHookStep (env : Env) : List Event :=
  match dump_core_and_quit env env.tempDir with
  | (Except.ok _, evs) => evs
  | (Except.error (ctx, err), evs) =>
      evs ++ [Event.eprintln ("failed to dump core: " ++ ctx ++ ": " ++ err.msg)]

/-- The closure passed to `set_hook`: run the captured previous hook first,
then the dump step. -/
def wrapHook (default_panic : Hook) : Hook :=
  fun info env => default_panic info env ++ panicHookStep env

/-- `pub fn register_panic_handler()` from `lib.rs`: `enable_core_dumps()?`,
then `take_hook` the previous hook and `set_hook` the wrapped one.  The
second component of the result is the hook installed afterwards (unchanged
on failure). -/
def register_panic_handler (env : Env) (hook : Hook) :
    Except (Str × Error) Unit × Hook × List Event :=
  match enable_core_dumps env with
  | (Except.error e, evs) => (Except.error e, hook, evs)
  | (Except.ok _, evs) =>
      (Except.ok (), wrapHook hook, evs ++ [Event.takeHook, Event.setHook])

/-- A hook that does nothing, used to instantiate closed statements. -/
def hookNil : Hook := fun _ _ => []

/-- An environment in which every OS call succeeds, with a nonzero hard
core limit. -/
def envGood : Env :=
  { getrlimitCore := some (0, 100)
    getrlimitErr := "ge"
    setrlimitCore := fun _ => none
    currentDir := some "/start"
    currentDirErr := "ce"
    setCurrentDir := fun _ => none
    pid := 7
    killRes := fun _ _ => none
    tempDir := "/tmp" }

/-- `envGood` with the hard core limit administratively set to zero. -/
def envZeroHard : Env :=
  { envGood with getrlimitCore := some (0, 0) }

/-- `envGood` with a failing `getrlimit`. -/
def envReadFail : Env :=
  { envGood with getrlimitCore := none }

/-- `envGood` with a failing `set_current_dir` for every target. -/
def envChdirFail : Env :=
  { envGood with setCurrentDir := fun _ => some "chdir denied" }

/-- `envGood` with failing signal delivery and a failing restore of the
working directory, to exercise the discarded-restoration path. -/
def envKillFail : Env :=
  { envGood with
    killRes := fun _ _ => some "kill failed"
    setCurrentDir := fun d => if d = "/start" then some "restore denied" else none }

/-- `envGood` with the process id at `u32::MAX`. -/
def envBigPid : Env :=
  { envGood with pid := 2 ^ 32 - 1 }

/-- C1: if the hard core-file-size limit read by `enable_core_dumps` is
zero, `register_panic_handler` fails with the "hard limit is zero" error,
the trace shows no `setrlimit` call (and no hook capture/installation), and
the installed panic hook is returned unaltered. -/
theorem register_fails_on_zero_hard_limit (env : Env) (hook : Hook) (cur : Nat)
    (h : env.getrlimitCore = some (cur, 0)) :
    register_panic_handler env hook =
      (Except.error
        ("failed to adjust core file size limit", Error.io "hard limit is zero"),
       hook, [Event.getrlimit]) := by
  simp [register_panic_handler, enable_core_dumps, h]

theorem register_fails_on_zero_hard_limit_witness :
    register_panic_handler envZeroHard hookNil =
      (Except.error
        ("failed to adjust core file size limit", Error.io "hard limit is zero"),
       hookNil, [Event.getrlimit]) :=
  register_fails_on_zero_hard_limit envZeroHard hookNil 0 rfl

/-- C2: whenever the resource-limit read or the resource-limit write fails,
`register_panic_handler` returns exactly the failure (with its context)
produced by `enable_core_dumps`, the previously installed hook is returned
unchanged, and neither `take_hook` nor `set_hook` is reached. -/
theorem register_propagates_limit_failure (env : Env) (hook : Hook)
    (h : env.getrlimitCore = none ∨
         ∃ cur mx e, env.getrlimitCore = some (cur, mx) ∧ mx ≠ 0 ∧
           env.setrlimitCore (mx, mx) = some e) :
    ∃ ce, (enable_core_dumps env).1 = Except.error ce ∧
      register_panic_handler env hook =
        (Except.error ce, hook, (enable_core_dumps env).2) ∧
      Event.takeHook ∉ (enable_core_dumps env).2 ∧
      Event.setHook ∉ (enable_core_dumps env).2 := by
  rcases h with h | ⟨cur, mx, e, hget, hmx, hset⟩
  · exact ⟨("failed to retrieve core file size limit", Error.io env.getrlimitErr),
      by simp [enable_core_dumps, h],
      by simp [register_panic_handler, enable_core_dumps, h]⟩
  · exact ⟨("failed to adjust core file size limit", Error.io e),
      by simp [enable_core_dumps, hget, hmx, hset],
      by simp [register_panic_handler, enable_core_dumps, hget, hmx, hset]⟩

theorem register_propagates_limit_failure_witness :
    ∃ ce, (enable_core_dumps envReadFail).1 = Except.error ce ∧
      register_panic_handler envReadFail hookNil =
        (Except.error ce, hookNil, (enable_core_dumps envReadFail).2) ∧
      Event.takeHook ∉ (enable_core_dumps envReadFail).2 ∧
      Event.setHook ∉ (enable_core_dumps envReadFail).2 :=
  register_propagates_limit_failure envReadFail hookNil (Or.inl rfl)

/-- C4: if changing the working directory to the scratch directory fails,
`dump_core_and_quit` returns the directory-change error with the target
path in its context, and the trace contains no `kill` call. -/
theorem dump_trigger_no_kill_on_chdir_failure (env : Env) (dir cd e : String)
    (hcd : env.currentDir = some cd) (hch : env.setCurrentDir dir = some e) :
    dump_core_and_quit env dir =
      (Except.error
        ("failed to change working directory to " ++ dir, Error.io e),
       [Event.getcwd, Event.chdir dir]) ∧
    ∀ p s, Event.kill p s ∉ (dump_core_and_quit env dir).2 := by
  have h : dump_core_and_quit env dir =
      (Except.error
        ("failed to change working directory to " ++ dir, Error.io e),
       [Event.getcwd, Event.chdir dir]) := by
    simp [dump_core_and_quit, hcd, hch]
  refine ⟨h, ?_⟩
  intro p s
  simp [h]

theorem dump_trigger_no_kill_on_chdir_failure_witness :
    dump_core_and_quit envChdirFail "/tmp" =
      (Except.error
        ("failed to change working directory to " ++ "/tmp",
         Error.io "chdir denied"),
       [Event.getcwd, Event.chdir "/tmp"]) ∧
    ∀ p s, Event.kill p s ∉ (dump_core_and_quit envChdirFail "/tmp").2 :=
  dump_trigger_no_kill_on_chdir_failure envChdirFail "/tmp" "/start" "chdir denied"
    rfl rfl

/-- C5: if signal delivery fails after the working directory was changed,
`dump_core_and_quit` attempts to restore the snapshot directory (the
`chdir cd` call appears in the trace after the `kill` attempt, and the
statement places no constraint on `env.setCurrentDir cd`, so the
restoration's own outcome is discarded) and returns the original
signal-delivery error. -/
theorem dump_trigger_restores_dir_on_kill_failure (env : Env) (dir cd e : String)
    (hcd : env.currentDir = some cd) (hch : env.setCurrentDir dir = none)
    (hpid : env.pid ≤ i32Max)
    (hkill : env.killRes (env.pid : Int) SIGQUIT = some e) :
    dump_core_and_quit env dir =
      (Except.error ("failed to send SIGQUIT", Error.io e),
       [Event.getcwd, Event.chdir dir,
        Event.kill (env.pid : Int) SIGQUIT, Event.chdir cd]) := by
  simp [dump_core_and_quit, hcd, hch, dump_core, pidTryInto, hpid, hkill]

theorem dump_trigger_restores_dir_on_kill_failure_witness :
    dump_core_and_quit envKillFail "/tmp" =
      (Except.error ("failed to send SIGQUIT", Error.io "kill failed"),
       [Event.getcwd, Event.chdir "/tmp",
        Event.kill (envKillFail.pid : Int) SIGQUIT, Event.chdir "/start"]) :=
  dump_trigger_restores_dir_on_kill_failure envKillFail "/tmp" "/start" "kill failed"
    rfl rfl (by decide) rfl

/-- C6: on every successful run of `enable_core_dumps` the pair written by
`setrlimit` is `(hard, hard)` where `hard` is the hard limit returned by
the `getrlimit` query: the soft limit applied equals the hard limit read. -/
theorem enable_sets_soft_to_hard (env : Env) (cur mx : Nat)
    (hread : env.getrlimitCore = some (cur, mx))
    (hok : (enable_core_dumps env).1 = Except.ok ()) :
    (enable_core_dumps env).2 = [Event.getrlimit, Event.setrlimit mx mx] := by
  by_cases hmx : mx = 0
  · simp [enable_core_dumps, hread, hmx] at hok
  · cases hset : env.setrlimitCore (mx, mx) with
    | some e => simp [enable_core_dumps, hread, hmx, hset] at hok
    | none => simp [enable_core_dumps, hread, hmx, hset]

theorem enable_sets_soft_to_hard_witness :
    (enable_core_dumps envGood).2 = [Event.getrlimit, Event.setrlimit 100 100] :=
  enable_sets_soft_to_hard envGood 0 100 rfl rfl

/-- C7: a process identifier at or above `u32::MAX` (the maximum of the
unsigned type the pid is converted from) makes `dump_core` return the
integer-conversion error with the offending PID named in its context, with
an empty trace: no `kill` call is made, the value is never wrapped. -/
theorem dump_core_conversion_error_at_u32_max (env : Env)
    (hlt : env.pid < 2 ^ 32) (hge : 2 ^ 32 - 1 ≤ env.pid) :
    dump_core env =
      (Except.error
        ("unable to dump core: PID " ++ toString env.pid ++
          " is not a valid unsigned value", Error.int), []) := by
  have hbig : ¬ env.pid ≤ i32Max := by
    simp only [i32Max]
    omega
  simp [dump_core, pidTryInto, hbig]

theorem dump_core_conversion_error_at_u32_max_witness :
    dump_core envBigPid =
      (Except.error
        ("unable to dump core: PID " ++ toString envBigPid.pid ++
          " is not a valid unsigned value", Error.int), []) :=
  dump_core_conversion_error_at_u32_max envBigPid (by decide) (by decide)

/-- On success, the hook installed by `register_panic_handler` is the
wrapped previous hook. -/
theorem register_ok_installs_wrapped (env : Env) (hook newHook : Hook)
    (evs : List Event)
    (h : register_panic_handler env hook = (Except.ok (), newHook, evs)) :
    newHook = wrapHook hook := by
  cases he : enable_core_dumps env with
  | mk r revs =>
      cases r with
      | error e => simp [register_panic_handler, he] at h
      | ok u =>
          simp [register_panic_handler, he] at h
          exact h.1.symm

/-- C3: the hook installed by a successful `register_panic_handler` runs,
at every fault, the previously captured hook first and fully, and only then
the dump step `panicHookStep` (which calls `dump_core_and_quit` against the
system temp directory): the fault-time trace is exactly the previous hook's
trace followed by the dump step's trace, unconditionally. -/
theorem installed_hook_runs_previous_then_dump (env : Env) (hook newHook : Hook)
    (evs : List Event)
    (h : register_panic_handler env hook = (Except.ok (), newHook, evs)) :
    ∀ info envF, newHook info envF = hook info envF ++ panicHookStep envF := by
  intro info envF
  rw [register_ok_installs_wrapped env hook newHook evs h]
  rfl

theorem installed_hook_runs_previous_then_dump_witness :
    wrapHook hookNil "payload" envGood =
      hookNil "payload" envGood ++ panicHookStep envGood :=
  installed_hook_runs_previous_then_dump envGood hookNil (wrapHook hookNil)
    [Event.getrlimit, Event.setrlimit 100 100, Event.takeHook, Event.setHook]
    rfl "payload" envGood

/-- C8: after two successful calls to `register_panic_handler`, every fault
runs the original pre-registration hook exactly once (its trace appears
once, at the front) and the dump step `panicHookStep` exactly twice — the
second registration wraps the already-wrapped hook rather than being a
no-op. -/
theorem double_registration_runs_dump_twice (env1 env2 : Env)
    (hook hook1 hook2 : Hook) (evs1 evs2 : List Event)
    (h1 : register_panic_handler env1 hook = (Except.ok (), hook1, evs1))
    (h2 : register_panic_handler env2 hook1 = (Except.ok (), hook2, evs2)) :
    ∀ info envF, hook2 info envF =
      hook info envF ++ panicHookStep envF ++ panicHookStep envF := by
  intro info envF
  rw [register_ok_installs_wrapped env2 hook1 hook2 evs2 h2,
    register_ok_installs_wrapped env1 hook hook1 evs1 h1]
  rfl

theorem double_registration_runs_dump_twice_witness :
    wrapHook (wrapHook hookNil) "payload" envGood =
      hookNil "payload" envGood ++ panicHookStep envGood ++ panicHookStep envGood :=
  double_registration_runs_dump_twice envGood envGood hookNil
    (wrapHook hookNil) (wrapHook (wrapHook hookNil))
    [Event.getrlimit, Event.setrlimit 100 100, Event.takeHook, Event.setHook]
    [Event.getrlimit, Event.setrlimit 100 100, Event.takeHook, Event.setHook]
    rfl rfl "payload" envGood

/-- C9: `enable_core_dumps` never modifies the hard limit: any `setrlimit`
call in its trace writes a pair whose hard field equals the hard limit the
`getrlimit` query returned (and whose soft field is that same value — only
the soft field differs from what was read). -/
theorem enable_preserves_hard_limit (env : Env) (c m : Nat)
    (h : Event.setrlimit c m ∈ (enable_core_dumps env).2) :
    c = m ∧ ∃ cur, env.getrlimitCore = some (cur, m) := by
  cases hget : env.getrlimitCore with
  | none => simp [enable_core_dumps, hget] at h
  | some p =>
      obtain ⟨cur, mx⟩ := p
      by_cases hmx : mx = 0
      · simp [enable_core_dumps, hget, hmx] at h
      · cases hset : env.setrlimitCore (mx, mx) with
        | some e =>
            simp [enable_core_dumps, hget, hmx, hset] at h
            obtain ⟨hc, hm⟩ := h
            subst hm
            exact ⟨hc, cur, rfl⟩
        | none =>
            simp [enable_core_dumps, hget, hmx, hset] at h
            obtain ⟨hc, hm⟩ := h
            subst hm
            exact ⟨hc, cur, rfl⟩

theorem enable_preserves_hard_limit_witness :
    100 = 100 ∧ ∃ cur, envGood.getrlimitCore = some (cur, 100) :=
  enable_preserves_hard_limit envGood 100 100 (by decide)

/-- C10: `register_panic_handler` returns an error exactly when
`enable_core_dumps` does, and the very same error; capturing and
installing the hook has no failure path, and on success the function
returns unit. -/
theorem register_error_iff_enable_error (env : Env) (hook : Hook) :
    (register_panic_handler env hook).1 = (enable_core_dumps env).1 := by
  cases he : enable_core_dumps env with
  | mk r revs =>
      cases r with
      | error e => simp [register_panic_handler, he]
      | ok u => simp [register_panic_handler, he]

end Coredump
